import Mathlib

/-!
Verification of `auto_bluetooth_wifi_sharer.py` (class `AutoBluetoothWiFiSharer`).

Shallow embedding: the handler methods become pure functions over an explicit
state `SharerState` (the mutable attributes of the object plus the credential
store file `/etc/wifi_credentials.json`), an environment `Env` supplying the
outcomes of external operations (subprocess calls, `iwconfig` output), and an
explicit trace of external calls (`Call`) so that properties about which
side-effecting operations run, and how often, can be stated.

Python dicts of strings are embedded as association lists
`List (String × String)` (`d.get(k)` is `List.lookup k d`); the Python `set`
`connected_devices` is a `Finset String`.
-/

namespace AutoSharer

/-- External calls performed by the handlers, in program order.
Constructors map to source lines:
* `writeTmpWpaConf`     — `open('/tmp/wpa_supplicant.conf', 'w')` (line 278);
* `copyWpaConf`         — `sudo cp` to `/etc/wpa_supplicant/wpa_supplicant.conf` (line 281, `check=True`);
* `restartNetworking`   — `sudo systemctl restart networking` (line 285, `check=True`);
* `sleepSecs n`         — `time.sleep(n)` (lines 250, 289);
* `queryConnectivity i` — `iwconfig i` connectivity check (line 292);
* `writeFile p r`       — truncating open + `json.dump(r)` to path `p` (lines 300-301);
* `renameFile`          — an atomic rename; never emitted by the source, present
  only so that its absence can be stated;
* `simulateExtraction`  — call of `simulate_credential_extraction` (line 213);
* `connectToWifi`       — call of `connect_to_wifi` (line 220). -/
inductive Call where
  | writeTmpWpaConf : Call
  | copyWpaConf : Call
  | restartNetworking : Call
  | sleepSecs (n : Nat) : Call
  | queryConnectivity (iface : String) : Call
  | writeFile (path : String) (record : List (String × String)) : Call
  | renameFile (src dst : String) : Call
  | simulateExtraction (devicePath deviceName : String) : Call
  | connectToWifi (ssid password : String) : Call
deriving DecidableEq

/-- Outcome of the `check=True` subprocess steps of `connect_to_wifi`
(lines 281 and 285): either both succeed, or `subprocess.CalledProcessError`
is raised at the `cp` or at the `systemctl restart` step. -/
inductive ApplyOutcome where
  | ok : ApplyOutcome
  | raiseAtCopy : ApplyOutcome
  | raiseAtRestart : ApplyOutcome
deriving DecidableEq

/-- Environment: outcomes of the external world during one handler run. -/
structure Env where
  /-- Whether the configuration-apply subprocess steps succeed or raise. -/
  applyOutcome : ApplyOutcome
  /-- `stdout` of `iwconfig wlan0` (line 292). -/
  iwconfigStdout : String
deriving DecidableEq

/-- Mutable state: the object's `connected_devices` set (line 43) and the
contents of the credential store file `/etc/wifi_credentials.json`
(`self.config_file`, line 38) — `none` when absent, otherwise the stored
record as an association list. -/
structure SharerState where
  connected_devices : Finset String
  config_file : Option (List (String × String))
deriving DecidableEq

/-- `needle` occurs at the start of `hay` (character list form). -/
def startsWithList : List Char → List Char → Bool
  | [], _ => true
  | _ :: _, [] => false
  | a :: as, b :: bs => a == b && startsWithList as bs

/-- `needle` occurs somewhere in `hay` (character list form). -/
def hasSubList (needle : List Char) : List Char → Bool
  | [] => startsWithList needle []
  | b :: bs => startsWithList needle (b :: bs) || hasSubList needle bs

/-- Python's `needle in hay` on strings. -/
def strContains (hay needle : String) : Bool :=
  hasSubList needle.toList hay.toList

/-- The connectivity test of line 295:
`'ESSID:' in result.stdout and 'off/any' not in result.stdout`. -/
def wifiCheckPasses (env : Env) : Bool :=
  strContains env.iwconfigStdout "ESSID:" && !(strContains env.iwconfigStdout "off/any")

/-- `connect_to_wifi(ssid, password)` (lines 261-310).

Writes the wpa_supplicant config, copies it into place and restarts
networking (any `CalledProcessError` in the `check=True` steps is caught at
line 308 and the function returns `False`); otherwise sleeps 10 s, runs
`iwconfig wlan0` once and, when the check of line 295 passes, writes
`{'ssid': ssid, 'password': password}` to `self.config_file` and returns
`True`, else returns `False`. Returns (result, state, external-call trace). -/
def connect_to_wifi (ssid password : String) (env : Env) (st : SharerState) :
    Bool × SharerState × List Call :=
  match env.applyOutcome with
  | .raiseAtCopy =>
      -- `sudo cp` raised; caught at line 308, returns False
      (false, st, [.writeTmpWpaConf])
  | .raiseAtRestart =>
      -- `systemctl restart networking` raised; caught at line 308, returns False
      (false, st, [.writeTmpWpaConf, .copyWpaConf])
  | .ok =>
      if wifiCheckPasses env then
        let credentials := [("ssid", ssid), ("password", password)]
        (true,
         { st with config_file := some credentials },
         [.writeTmpWpaConf, .copyWpaConf, .restartNetworking, .sleepSecs 10,
          .queryConnectivity "wlan0", .writeFile "/etc/wifi_credentials.json" credentials])
      else
        (false, st,
         [.writeTmpWpaConf, .copyWpaConf, .restartNetworking, .sleepSecs 10,
          .queryConnectivity "wlan0"])

/-- Python truthiness of `credentials.get(key)`: `True` exactly when the key is
present with a non-empty string value. -/
def wifiTruthy : Option String → Bool
  | none => false
  | some s => !s.isEmpty

/-- The guard of line 215:
`credentials and credentials.get('ssid') and credentials.get('password')`.
(When `credentials` is an empty dict the lookups return `None`, so collapsing
the dict-truthiness test into the lookups is behaviour-preserving.) -/
def credentialsTruthy (credentials : Option (List (String × String))) : Bool :=
  match credentials with
  | none => false
  | some creds => wifiTruthy (creds.lookup "ssid") && wifiTruthy (creds.lookup "password")

/-- Lines 215-228 of `extract_wifi_credentials`, parameterised by the
`credentials` value returned by `simulate_credential_extraction` at line 213:
when the guard of line 215 passes, call `connect_to_wifi` with the two fields
and return its result; otherwise return `False` with no further calls. -/
def extract_with_credentials (credentials : Option (List (String × String)))
    (env : Env) (st : SharerState) : Bool × SharerState × List Call :=
  match credentials with
  | some creds =>
      if wifiTruthy (creds.lookup "ssid") && wifiTruthy (creds.lookup "password") then
        let ssid := (creds.lookup "ssid").getD ""
        let password := (creds.lookup "password").getD ""
        let r := connect_to_wifi ssid password env st
        (r.1, r.2.1, Call.connectToWifi ssid password :: r.2.2)
      else
        (false, st, [])
  | none => (false, st, [])

/-- `simulate_credential_extraction(device_path, device_name)` (lines 234-259):
sleeps 2 s and returns `None` for every input (the `except` branch also
returns `None`). Returns (credentials, external-call trace). -/
def simulate_credential_extraction (device_path device_name : String) :
    Option (List (String × String)) × List Call :=
  (none, [.sleepSecs 2])

/-- `extract_wifi_credentials(device_path, device_name)` (lines 197-232):
calls `simulate_credential_extraction` once (line 213), then runs the
guarded connect of lines 215-228. -/
def extract_wifi_credentials (device_path device_name : String) (env : Env)
    (st : SharerState) : Bool × SharerState × List Call :=
  let sim := simulate_credential_extraction device_path device_name
  let r := extract_with_credentials sim.1 env st
  (r.1, r.2.1, Call.simulateExtraction device_path device_name :: sim.2 ++ r.2.2)

/-- `on_device_connected(path, interfaces)` (lines 170-185), body inside the
`try`: when `"org.bluez.Device1" in interfaces`, reads the device properties,
adds `path` to `self.connected_devices` (line 179) and calls
`extract_wifi_credentials(path, device_name)` (line 182), whose return value
is discarded.  `interfaces` is the D-Bus interface → properties dict. -/
def on_device_connected (path : String)
    (interfaces : List (String × List (String × String))) (env : Env)
    (st : SharerState) : SharerState :=
  match interfaces.lookup "org.bluez.Device1" with
  | some device =>
      let device_name := (device.lookup "Name").getD "Unknown Device"
      let st1 : SharerState :=
        { st with connected_devices := insert path st.connected_devices }
      (extract_wifi_credentials path device_name env st1).2.1
  | none => st

/-- `on_device_disconnected(path, interfaces)` (lines 187-195), body inside
the `try`: remove `path` from `self.connected_devices` when present
(`interfaces` is unused by the body). -/
def on_device_disconnected (path : String)
    (interfaces : List (String × List (String × String))) (st : SharerState) :
    SharerState :=
  if path ∈ st.connected_devices then
    { st with connected_devices := st.connected_devices.erase path }
  else st

/-! ### The `try`/`except Exception` wrappers

Each of the three handlers wraps its whole body in
`try: ... except Exception as e: logger.error(...)` (lines 172-185, 189-195,
199-232).  A body run is embedded as `Except (String × SharerState) (α × SharerState)`:
`.ok (v, s)` is a normal completion with return value `v` in state `s`;
`.error (e, s)` is an exception `e` raised at any point of the body, with `s`
the object state at the raise point (mutations made before the raise persist).
The wrapper catches every exception, logs it, and returns normally. -/

/-- `on_device_connected`'s `except` clause (lines 184-185): logs and returns
`None`, leaving the state as it was at the raise point. -/
def on_device_connected_guarded
    (body : Except (String × SharerState) (Unit × SharerState)) :
    Except (String × SharerState) (Unit × SharerState) :=
  match body with
  | .ok r => .ok r
  | .error es => .ok ((), es.2)

/-- `on_device_disconnected`'s `except` clause (lines 194-195). -/
def on_device_disconnected_guarded
    (body : Except (String × SharerState) (Unit × SharerState)) :
    Except (String × SharerState) (Unit × SharerState) :=
  match body with
  | .ok r => .ok r
  | .error es => .ok ((), es.2)

/-- `extract_wifi_credentials`'s `except` clause (lines 230-232): logs and
returns `False`. -/
def extract_wifi_credentials_guarded
    (body : Except (String × SharerState) (Bool × SharerState)) :
    Except (String × SharerState) (Bool × SharerState) :=
  match body with
  | .ok r => .ok r
  | .error es => .ok (false, es.2)

/-! ### Trace observations -/

/-- Number of `simulate_credential_extraction` calls in a trace. -/
def simulateCallCount (calls : List Call) : Nat :=
  calls.countP fun c => match c with
    | .simulateExtraction _ _ => true
    | _ => false

/-- Number of connectivity checks (`iwconfig` runs) in a trace. -/
def connectivityCheckCount (calls : List Call) : Nat :=
  calls.countP fun c => match c with
    | .queryConnectivity _ => true
    | _ => false

/-- Number of atomic renames in a trace. -/
def renameCount (calls : List Call) : Nat :=
  calls.countP fun c => match c with
    | .renameFile _ _ => true
    | _ => false

/-- Number of writes to the given path in a trace. -/
def writeCountTo (path : String) (calls : List Call) : Nat :=
  calls.countP fun c => match c with
    | .writeFile p _ => p == path
    | _ => false

/-! ### Credential-store replacement, fine-grained

Model of the persistence step (lines 300-301) at the granularity of observable
file states, for the atomicity question. -/

/-- Observable content of `/etc/wifi_credentials.json`. -/
inductive StoreContent where
  | absent : StoreContent
  | truncated : StoreContent
  | record (fields : List (String × String)) : StoreContent
deriving DecidableEq

/-- Observable contents of the store during the persistence step of
`connect_to_wifi` (lines 300-301): `open(self.config_file, 'w')` truncates the
canonical file in place, then `json.dump` writes the new record into it.  A
concurrent reader, or the post-crash state after an interruption, observes the
old content, then the truncated file (`json.dump`'s incremental writing makes
further partial states possible; one intermediate suffices here), then the
new record. -/
def replaceObservableStates (old : StoreContent)
    (fields : List (String × String)) : List StoreContent :=
  [old, .truncated, .record fields]

/-- Modelled from the spec (for comparison, not from the source): a crash-safe
`replace` that writes to a staging location and atomically swaps it into the
canonical location; the canonical file's observable contents jump directly
from the old record to the new one. -/
def replaceObservableStatesSpec (old : StoreContent)
    (fields : List (String × String)) : List StoreContent :=
  [old, .record fields]

/-- Number of `truncated` states in a list of observable store contents. -/
def truncatedCount (states : List StoreContent) : Nat :=
  states.countP fun s => match s with
    | .truncated => true
    | _ => false

/-! ### Concrete sample inputs -/

/-- Initial state: empty device set, no stored credential file. -/
def st0 : SharerState := ⟨∅, none⟩

/-- Environment where the `sudo cp` step raises `CalledProcessError`. -/
def envApplyRaise : Env := ⟨.raiseAtCopy, ""⟩

/-- Environment where apply succeeds but `iwconfig` reports no association. -/
def envNoAssoc : Env := ⟨.ok, "wlan0  IEEE 802.11  ESSID:off/any"⟩

/-- Environment where apply succeeds and `iwconfig` reports an association
with `HomeNet`. -/
def envAssocHomeNet : Env := ⟨.ok, "wlan0  IEEE 802.11  ESSID:\"HomeNet\""⟩

end AutoSharer

namespace AutoSharer

/-! ## Claims -/

/-- **C1.** If the apply step raises (`cp`/`systemctl restart` fails with
`CalledProcessError`) or the connectivity check of line 295 does not report an
active association, then `connect_to_wifi` returns `False`, the whole state —
in particular the credential store file `/etc/wifi_credentials.json` — is
unchanged, and no write to the store occurs in the trace.  Contrapositive:
the store is written only on the success path, after the check passes. -/
theorem connect_to_wifi_failure_leaves_store_unchanged
    (ssid password : String) (env : Env) (st : SharerState)
    (h : env.applyOutcome ≠ ApplyOutcome.ok ∨ wifiCheckPasses env = false) :
    (connect_to_wifi ssid password env st).1 = false ∧
    (connect_to_wifi ssid password env st).2.1 = st ∧
    writeCountTo "/etc/wifi_credentials.json"
      (connect_to_wifi ssid password env st).2.2 = 0 := by
  rcases h with h | h
  · cases ho : env.applyOutcome
    · exact absurd ho h
    · simp [connect_to_wifi, ho, writeCountTo]
    · simp [connect_to_wifi, ho, writeCountTo]
  · cases ho : env.applyOutcome
    · simp [connect_to_wifi, ho, h, writeCountTo]
    · simp [connect_to_wifi, ho, writeCountTo]
    · simp [connect_to_wifi, ho, writeCountTo]

/-- Witness for C1: concrete run where the apply step raises. -/
theorem connect_to_wifi_failure_leaves_store_unchanged_witness :
    (connect_to_wifi "HomeNet" "s3cret123" envApplyRaise st0).1 = false ∧
    (connect_to_wifi "HomeNet" "s3cret123" envApplyRaise st0).2.1 = st0 ∧
    writeCountTo "/etc/wifi_credentials.json"
      (connect_to_wifi "HomeNet" "s3cret123" envApplyRaise st0).2.2 = 0 :=
  connect_to_wifi_failure_leaves_store_unchanged "HomeNet" "s3cret123"
    envApplyRaise st0 (Or.inl (by decide))

/-- **C6.** Delivering a second connect event for the same peer path is a
no-op on top of the first: the handler is idempotent, so no second tracked
entry (Python `set` ⇒ `Finset`) and no additional state for that peer is
created. -/
theorem on_device_connected_idempotent :
    ∀ (path : String) (interfaces : List (String × List (String × String)))
      (env : Env) (st : SharerState),
    on_device_connected path interfaces env (on_device_connected path interfaces env st) =
      on_device_connected path interfaces env st := by
  intro path interfaces env st
  cases h : interfaces.lookup "org.bluez.Device1" with
  | none => simp [on_device_connected, h]
  | some device =>
      simp [on_device_connected, h, extract_wifi_credentials,
        simulate_credential_extraction, extract_with_credentials,
        Finset.insert_idem]

/-- **C7.** Every handler wraps its whole body in `try`/`except Exception`:
whatever the body does — normal completion or an exception raised at any
point, in any intermediate state — the guarded handler returns normally
(`Except.ok`); no exception propagates to the dispatch loop. -/
theorem handlers_catch_all_exceptions :
    ∀ (bc bd : Except (String × SharerState) (Unit × SharerState))
      (be : Except (String × SharerState) (Bool × SharerState)),
    (∃ r, on_device_connected_guarded bc = Except.ok r) ∧
    (∃ r, on_device_disconnected_guarded bd = Except.ok r) ∧
    (∃ r, extract_wifi_credentials_guarded be = Except.ok r) := by
  intro bc bd be
  refine ⟨?_, ?_, ?_⟩
  · cases bc with
    | ok r => exact ⟨r, rfl⟩
    | error es => exact ⟨((), es.2), rfl⟩
  · cases bd with
    | ok r => exact ⟨r, rfl⟩
    | error es => exact ⟨((), es.2), rfl⟩
  · cases be with
    | ok r => exact ⟨r, rfl⟩
    | error es => exact ⟨(false, es.2), rfl⟩

/-- **C8.** When the extracted credentials dict is absent, or its `ssid` or
`password` entry is missing or empty (the guard of line 215 is falsy),
the extraction step returns `False`, changes nothing, and performs no calls —
in particular `connect_to_wifi` is never invoked.  Contrapositive:
`connect_to_wifi` is invoked only on credentials with both fields present and
non-empty. -/
theorem extract_requires_truthy_credentials
    (credentials : Option (List (String × String))) (env : Env) (st : SharerState)
    (h : credentialsTruthy credentials = false) :
    (extract_with_credentials credentials env st).1 = false ∧
    (extract_with_credentials credentials env st).2.1 = st ∧
    (extract_with_credentials credentials env st).2.2 = [] := by
  cases credentials with
  | none => simp [extract_with_credentials]
  | some creds =>
      simp only [credentialsTruthy] at h
      simp [extract_with_credentials, h]

/-- Witness for C8: credentials with an empty `password` never reach
`connect_to_wifi`. -/
theorem extract_requires_truthy_credentials_witness :
    (extract_with_credentials (some [("ssid", "HomeNet"), ("password", "")])
        envAssocHomeNet st0).1 = false ∧
    (extract_with_credentials (some [("ssid", "HomeNet"), ("password", "")])
        envAssocHomeNet st0).2.1 = st0 ∧
    (extract_with_credentials (some [("ssid", "HomeNet"), ("password", "")])
        envAssocHomeNet st0).2.2 = [] :=
  extract_requires_truthy_credentials (some [("ssid", "HomeNet"), ("password", "")])
    envAssocHomeNet st0 (by decide)

/-- **C9.** `simulate_credential_extraction` returns `None` for every input,
so every `extract_wifi_credentials` run returns `False`, leaves the state (in
particular the credential store) unchanged, and its trace is exactly the one
simulate call plus its 2 s sleep — no `connect_to_wifi` call, no file write;
consequently every connect event leaves the store file unchanged. -/
theorem simulate_none_so_store_never_written :
    ∀ (device_path device_name path : String)
      (interfaces : List (String × List (String × String)))
      (env : Env) (st : SharerState),
    (simulate_credential_extraction device_path device_name).1 = none ∧
    (extract_wifi_credentials device_path device_name env st).1 = false ∧
    (extract_wifi_credentials device_path device_name env st).2.1 = st ∧
    (extract_wifi_credentials device_path device_name env st).2.2 =
      [Call.simulateExtraction device_path device_name, Call.sleepSecs 2] ∧
    (on_device_connected path interfaces env st).config_file = st.config_file := by
  intro device_path device_name path interfaces env st
  refine ⟨rfl, rfl, rfl, rfl, ?_⟩
  cases h : interfaces.lookup "org.bluez.Device1" with
  | none => simp [on_device_connected, h]
  | some device =>
      simp [on_device_connected, h, extract_wifi_credentials,
        simulate_credential_extraction, extract_with_credentials]

/-- **C10.** `on_device_disconnected` is idempotent on the tracked-peer state:
an absent path (including a second delivery of the same disconnect) leaves the
state unchanged; the only effect is erasing that one path from the set (the
store file is untouched), and a repeated delivery changes nothing further. -/
theorem on_device_disconnected_idempotent_frame
    (path : String) (interfaces : List (String × List (String × String)))
    (st : SharerState) :
    (path ∉ st.connected_devices → on_device_disconnected path interfaces st = st) ∧
    (on_device_disconnected path interfaces st).connected_devices =
      st.connected_devices.erase path ∧
    (on_device_disconnected path interfaces st).config_file = st.config_file ∧
    on_device_disconnected path interfaces (on_device_disconnected path interfaces st) =
      on_device_disconnected path interfaces st := by
  by_cases h : path ∈ st.connected_devices
  · refine ⟨fun habs => absurd h habs, ?_, ?_, ?_⟩
    · simp [on_device_disconnected, h]
    · simp [on_device_disconnected, h]
    · simp [on_device_disconnected, h]
  · have habs : on_device_disconnected path interfaces st = st := by
      simp [on_device_disconnected, h]
    refine ⟨fun _ => habs, ?_, ?_, ?_⟩
    · rw [habs, Finset.erase_eq_self.mpr h]
    · rw [habs]
    · rw [habs, habs]

/-- Witness for C10: disconnect for a path never connected is a no-op. -/
theorem on_device_disconnected_idempotent_frame_witness :
    on_device_disconnected "/org/bluez/hci0/dev_AA" [] st0 = st0 :=
  (on_device_disconnected_idempotent_frame "/org/bluez/hci0/dev_AA" [] st0).1
    (by simp [st0])

/-- **C2, counterexample.** The store update is not staged or atomic: during
the code's replace (truncating open + write, lines 300-301) a reader can
observe the `truncated` file — a state that is neither the old record nor the
new one and which the spec's staging + atomic-swap replace never exposes —
and the trace of a successful `connect_to_wifi` performs no rename at all,
writing the canonical path `/etc/wifi_credentials.json` directly. -/
theorem store_replace_not_atomic_counterexample :
    truncatedCount (replaceObservableStates
      (StoreContent.record [("ssid", "a"), ("password", "b")])
      [("ssid", "c"), ("password", "d")]) = 1 ∧
    truncatedCount (replaceObservableStatesSpec
      (StoreContent.record [("ssid", "a"), ("password", "b")])
      [("ssid", "c"), ("password", "d")]) = 0 ∧
    renameCount (connect_to_wifi "HomeNet" "s3cret123" envAssocHomeNet st0).2.2 = 0 ∧
    writeCountTo "/etc/wifi_credentials.json"
      (connect_to_wifi "HomeNet" "s3cret123" envAssocHomeNet st0).2.2 = 1 := by
  decide

/-- **C2, amended.** Replacing the stored record is a direct in-place update:
the canonical file is truncated and rewritten (exposing exactly one
intermediate `truncated` state to concurrent or post-crash readers, which a
staged atomic swap would not expose), and no run of `connect_to_wifi` ever
performs an atomic rename. -/
theorem store_replace_direct_write :
    ∀ (old newFields : List (String × String)) (ssid password : String)
      (env : Env) (st : SharerState),
    truncatedCount (replaceObservableStates (StoreContent.record old) newFields) = 1 ∧
    truncatedCount (replaceObservableStatesSpec (StoreContent.record old) newFields) = 0 ∧
    renameCount (connect_to_wifi ssid password env st).2.2 = 0 := by
  intro old newFields ssid password env st
  refine ⟨by simp [truncatedCount, replaceObservableStates],
          by simp [truncatedCount, replaceObservableStatesSpec], ?_⟩
  cases ho : env.applyOutcome
  · by_cases hc : wifiCheckPasses env
    · simp [connect_to_wifi, ho, hc, renameCount]
    · simp [connect_to_wifi, ho, hc, renameCount]
  · simp [connect_to_wifi, ho, renameCount]
  · simp [connect_to_wifi, ho, renameCount]

/-- **C3, counterexample.** A run whose payload fails (simulate yields no
credentials) reaches its failure result after exactly one extraction attempt:
the trace contains a single `simulate_credential_extraction` call, not the
three the claimed retry loop would produce — there is no attempts counter,
no backoff, and no re-request. -/
theorem extract_no_retry_counterexample :
    (extract_wifi_credentials "/org/bluez/hci0/dev_AA" "Phone" envAssocHomeNet st0).1
      = false ∧
    simulateCallCount
      (extract_wifi_credentials "/org/bluez/hci0/dev_AA" "Phone" envAssocHomeNet st0).2.2
      = 1 ∧
    (simulateCallCount
      (extract_wifi_credentials "/org/bluez/hci0/dev_AA" "Phone" envAssocHomeNet st0).2.2
      == 3) = false := by
  decide

/-- **C3, amended.** `extract_wifi_credentials` performs exactly one
extraction attempt per connect event; when the payload is missing or fails
validation it returns `False` immediately, with no retry loop, no attempts
counter and no backoff. -/
theorem extract_single_attempt_no_retry :
    ∀ (device_path device_name : String) (env : Env) (st : SharerState),
    simulateCallCount
      (extract_wifi_credentials device_path device_name env st).2.2 = 1 ∧
    (extract_wifi_credentials device_path device_name env st).1 = false := by
  intro device_path device_name env st
  exact ⟨rfl, rfl⟩

/-- **C4, counterexample.** Verification is decided from a single check and
ignores the requested network: with the apply step succeeding and `iwconfig`
reporting `ESSID:off/any`, `connect_to_wifi` reports failure after exactly one
connectivity query (not five attempts with backoff); and a request for
`OtherNet` succeeds on output that names `HomeNet`, so the check does not
match the requested network either. -/
theorem verify_single_check_counterexample :
    (connect_to_wifi "HomeNet" "s3cret123" envNoAssoc st0).1 = false ∧
    connectivityCheckCount
      (connect_to_wifi "HomeNet" "s3cret123" envNoAssoc st0).2.2 = 1 ∧
    (connectivityCheckCount
      (connect_to_wifi "HomeNet" "s3cret123" envNoAssoc st0).2.2 == 5) = false ∧
    (connect_to_wifi "OtherNet" "s3cret123" envAssocHomeNet st0).1 = true := by
  decide

/-- **C4, amended.** Whenever the apply step succeeds, `connect_to_wifi`
sleeps a fixed 10 seconds and performs exactly one `iwconfig` connectivity
check; success or failure is decided from that single check (which only tests
that some ESSID is associated, not that it matches the requested network),
with no polling, no retries and no backoff. -/
theorem verify_single_check
    (ssid password : String) (env : Env) (st : SharerState)
    (h : env.applyOutcome = ApplyOutcome.ok) :
    connectivityCheckCount (connect_to_wifi ssid password env st).2.2 = 1 ∧
    Call.sleepSecs 10 ∈ (connect_to_wifi ssid password env st).2.2 := by
  by_cases hc : wifiCheckPasses env
  · simp [connect_to_wifi, h, hc, connectivityCheckCount]
  · simp [connect_to_wifi, h, hc, connectivityCheckCount]

/-- Witness for the amended C4: one check in a concrete successful run. -/
theorem verify_single_check_witness :
    connectivityCheckCount
      (connect_to_wifi "HomeNet" "s3cret123" envAssocHomeNet st0).2.2 = 1 ∧
    Call.sleepSecs 10 ∈
      (connect_to_wifi "HomeNet" "s3cret123" envAssocHomeNet st0).2.2 :=
  verify_single_check "HomeNet" "s3cret123" envAssocHomeNet st0 rfl

/-- **C5, counterexample.** For the Scenario A input (`HomeNet`,
`s3cret123`) with apply and check succeeding, the persisted record is
`{'ssid': "HomeNet", 'password': "s3cret123"}`: it carries neither a
`verified` marker nor `networkName`/`secret`/`acceptedAt` keys, so it is not
the claimed `{networkName, secret, verified: true}` record. -/
theorem stored_record_no_verified_field_counterexample :
    (connect_to_wifi "HomeNet" "s3cret123" envAssocHomeNet st0).2.1.config_file =
      some [("ssid", "HomeNet"), ("password", "s3cret123")] ∧
    ([("ssid", "HomeNet"), ("password", "s3cret123")] :
      List (String × String)).lookup "verified" = none ∧
    ([("ssid", "HomeNet"), ("password", "s3cret123")] :
      List (String × String)).lookup "networkName" = none ∧
    ([("ssid", "HomeNet"), ("password", "s3cret123")] :
      List (String × String)).lookup "acceptedAt" = none := by
  decide

/-- **C5, amended.** When apply and the connectivity check both succeed, the
stored record is exactly the submitted credentials under the keys
`ssid`/`password` — `{'ssid': ssid, 'password': password}` — with no
`verified` marker and no timestamp, and the call returns `True`. -/
theorem stored_record_is_ssid_password
    (ssid password : String) (env : Env) (st : SharerState)
    (h : env.applyOutcome = ApplyOutcome.ok ∧ wifiCheckPasses env = true) :
    (connect_to_wifi ssid password env st).1 = true ∧
    (connect_to_wifi ssid password env st).2.1.config_file =
      some [("ssid", ssid), ("password", password)] := by
  simp [connect_to_wifi, h.1, h.2]

/-- Witness for the amended C5: the Scenario A input. -/
theorem stored_record_is_ssid_password_witness :
    (connect_to_wifi "HomeNet" "s3cret123" envAssocHomeNet st0).1 = true ∧
    (connect_to_wifi "HomeNet" "s3cret123" envAssocHomeNet st0).2.1.config_file =
      some [("ssid", "HomeNet"), ("password", "s3cret123")] :=
  stored_record_is_ssid_password "HomeNet" "s3cret123" envAssocHomeNet st0
    ⟨rfl, by decide⟩

end AutoSharer
